import Mathlib

/-!
Shallow embedding of the HereNow event-discovery client's core services:
the persistence layer (`PersistenceService.ts`), the notification scheduler
(`NotificationService.ts`) and the geofence monitor (`LocationService.ts`).
Dates/instants are modelled as integer milliseconds since the epoch;
`localStorage` is modelled as an association list of keys to stored values
together with an availability flag (set to `false`, every primitive access
throws, mirroring browsers that block storage).  JavaScript string
comparison is modelled as lexicographic comparison of code units.
-/

namespace HereNow

/-- Repeat interval of a scheduled notification
(`INotificationService.ts`, field `repeatInterval?: 'daily' | 'weekly'`). -/
inductive RepeatInterval where
  | daily
  | weekly
deriving DecidableEq

/-- A scheduled notification (`INotificationService.ts` lines 51-58).
`scheduledTime` is the `Date` field in epoch milliseconds.  Payload fields
not read by the scheduler logic (imageUrl, actionUrl, data, category) are
carried by `title`/`body` representatives. -/
structure ScheduledNotification where
  id : String
  title : String
  body : String
  scheduledTime : Int
  repeating : Bool
  repeatInterval : Option RepeatInterval
deriving DecidableEq

/-- A value held in `localStorage`.  The JSON serialization layer is
transparent in this model: the typed shapes the services read and write
(`{date, count}` ad-watch records, arrays of scheduled notifications) are
stored directly; `raw` stands for any other serialized payload. -/
inductive StoredVal where
  | adData (date : String) (count : Int)
  | schedList (ns : List ScheduledNotification)
  | raw (s : String)
deriving DecidableEq

/-- The browser `localStorage`: an availability flag (private-mode browsers
throw on every access) and the stored key/value pairs. -/
structure LocalStorage where
  avail : Bool
  items : List (String × StoredVal)
deriving DecidableEq

/-- Key lookup in the stored items (`localStorage.getItem`'s successful path). -/
def lookupItem (items : List (String × StoredVal)) (k : String) : Option StoredVal :=
  (items.find? (fun p => p.1 == k)).map (fun p => p.2)

/-- `localStorage.getItem`: throws when storage is unavailable. -/
def lsGetItem (ls : LocalStorage) (k : String) : Except String (Option StoredVal) :=
  if ls.avail then .ok (lookupItem ls.items k) else .error "storage unavailable"

/-- `localStorage.setItem`: throws when storage is unavailable. -/
def lsSetItem (ls : LocalStorage) (k : String) (v : StoredVal) :
    Except String LocalStorage :=
  if ls.avail then
    .ok { ls with items := (k, v) :: ls.items.filter (fun p => p.1 != k) }
  else .error "storage unavailable"

/-- `localStorage.removeItem`: throws when storage is unavailable. -/
def lsRemoveItem (ls : LocalStorage) (k : String) : Except String LocalStorage :=
  if ls.avail then
    .ok { ls with items := ls.items.filter (fun p => p.1 != k) }
  else .error "storage unavailable"

/-! ## PersistenceService (`src/services/implementations/PersistenceService.ts`) -/

/-- `PersistenceService.set` (lines 66-76): serializes and stores; on a
storage failure it logs and rethrows `Failed to persist data for key k`. -/
def persistSet (ls : LocalStorage) (k : String) (v : StoredVal) :
    Except String LocalStorage :=
  match lsSetItem ls k v with
  | .ok ls2 => .ok ls2
  | .error _ => .error ("Failed to persist data for key " ++ k)

/-- `PersistenceService.get` (lines 83-99): returns `null` both when the key
is missing and when the underlying access throws (the catch returns null). -/
def persistGet (ls : LocalStorage) (k : String) : Option StoredVal :=
  match lsGetItem ls k with
  | .ok r => r
  | .error _ => none

/-- `PersistenceService.remove` (lines 105-111): failures are swallowed. -/
def persistRemove (ls : LocalStorage) (k : String) : LocalStorage :=
  match lsRemoveItem ls k with
  | .ok ls2 => ls2
  | .error _ => ls

/-- JavaScript `String.prototype.startsWith`, structurally over code units. -/
def charsStartsWith : List Char → List Char → Bool
  | _, [] => true
  | [], _ :: _ => false
  | a :: as, b :: bs => (a == b) && charsStartsWith as bs

/-- `s.startsWith(pre)` on strings. -/
def strStartsWith (s pre : String) : Bool := charsStartsWith s.data pre.data

/-- `PersistenceService.clear` (lines 117-133): collects every key starting
with `herenow_` and removes each; when storage is unavailable the first
access throws and the catch leaves everything unchanged. -/
def persistClear (ls : LocalStorage) : LocalStorage :=
  if ls.avail then
    { ls with items := ls.items.filter (fun p => !(strStartsWith p.1 "herenow_")) }
  else ls

/-- Storage key used by `recordAdWatch`/`getAdWatchCount`
(`StorageKey.AD_WATCH_COUNT`; the member is referenced by
`PersistenceService.ts` though absent from the `StorageKey` enum in
`IPersistenceService.ts` — all four uses name this same key, and no claim
depends on its concrete spelling). -/
def AD_WATCH_COUNT : String := "herenow_ad_watch_count"

/-- Number of ads required to unlock the daily event
(`PersistenceService.ts` line 19). -/
def ADS_REQUIRED : Int := 3

/-- The typed read `get<{date, count}>(AD_WATCH_COUNT)`: any stored value of
a different shape lacks a matching `date` field and takes the same reset
branch as an absent entry. -/
def adEntry (ls : LocalStorage) : Option (String × Int) :=
  match persistGet ls AD_WATCH_COUNT with
  | some (.adData d c) => some (d, c)
  | _ => none

/-- `PersistenceService.recordAdWatch` (lines 200-219), with `today` the
current day-stamp: if no entry or a stale day-stamp, resets to 1; otherwise
increments and re-stores; returns the post-increment count.  The awaited
`set` calls propagate their error. -/
def recordAdWatch (today : String) (ls : LocalStorage) :
    Except String (Int × LocalStorage) :=
  match adEntry ls with
  | some (d, c) =>
    if d != today then
      match persistSet ls AD_WATCH_COUNT (.adData today 1) with
      | .ok ls2 => .ok (1, ls2)
      | .error e => .error e
    else
      match persistSet ls AD_WATCH_COUNT (.adData today (c + 1)) with
      | .ok ls2 => .ok (c + 1, ls2)
      | .error e => .error e
  | none =>
    match persistSet ls AD_WATCH_COUNT (.adData today 1) with
    | .ok ls2 => .ok (1, ls2)
    | .error e => .error e

/-- `PersistenceService.getAdWatchCount` (lines 225-235). -/
def getAdWatchCount (today : String) (ls : LocalStorage) : Int :=
  match adEntry ls with
  | some (d, c) => if d != today then 0 else c
  | none => 0

/-- `PersistenceService.isEventUnlocked` (lines 241-244). -/
def isEventUnlocked (today : String) (ls : LocalStorage) : Bool :=
  decide (getAdWatchCount today ls ≥ ADS_REQUIRED)

/-- Result value of a `recordAdWatch` call (`none` when the call rejects). -/
def adWatchResult (today : String) (ls : LocalStorage) : Option Int :=
  match recordAdWatch today ls with
  | .ok (n, _) => some n
  | .error _ => none

/-- Storage state after a `recordAdWatch` call (unchanged when it rejects). -/
def adWatchStore (today : String) (ls : LocalStorage) : LocalStorage :=
  match recordAdWatch today ls with
  | .ok (_, ls2) => ls2
  | .error _ => ls

/-! ## NotificationService (`src/services/implementations/NotificationService.ts`) -/

/-- Key for persisted scheduled notifications (line 44). -/
def SCHEDULED_KEY : String := "herenow_scheduled_notifications"

/-- In-memory scheduler state.  `armedTimers` models the runtime's set of
armed `setTimeout` callbacks (handle, notification); `scheduledTimeouts` is
the service's `Map` from notification id to timeout handle (line 55);
`nextHandle` generates fresh handles. -/
structure NotifState where
  armedTimers : List (Nat × ScheduledNotification)
  scheduledTimeouts : List (String × Nat)
  nextHandle : Nat
deriving DecidableEq

/-- `Map.set` on the id-to-handle map. -/
def mapSet (m : List (String × Nat)) (k : String) (v : Nat) : List (String × Nat) :=
  (k, v) :: m.filter (fun p => p.1 != k)

/-- `Map.delete` on the id-to-handle map. -/
def mapDelete (m : List (String × Nat)) (k : String) : List (String × Nat) :=
  m.filter (fun p => p.1 != k)

/-- One calendar day in milliseconds (`nextTime.setDate(nextTime.getDate() + 1)`). -/
def dayMs : Int := 86400000

/-- `NotificationService.getPendingNotificationsSync` (lines 141-145): the
source returns the empty array unconditionally ("we store timeout
references, not full data"). -/
def getPendingNotificationsSync (st : NotifState) : List ScheduledNotification :=
  []

/-- `NotificationService.getPendingNotifications` (lines 366-368). -/
def getPendingNotifications (st : NotifState) : List ScheduledNotification :=
  getPendingNotificationsSync st

/-- `NotificationService.saveScheduledNotifications` (lines 126-136): stores
`Array.from(this.getPendingNotificationsSync())` under `SCHEDULED_KEY`;
failures are swallowed. -/
def saveScheduledNotifications (st : NotifState) (ls : LocalStorage) : LocalStorage :=
  match lsSetItem ls SCHEDULED_KEY (.schedList (getPendingNotificationsSync st)) with
  | .ok ls2 => ls2
  | .error _ => ls

/-- `NotificationService.scheduleNotificationInternal` (lines 260-300):
computes `delay = scheduledTime - now`; if `delay <= 0` returns without
arming anything; otherwise arms a timeout and records its handle in the map. -/
def scheduleNotificationInternal (now : Int) (n : ScheduledNotification)
    (st : NotifState) : NotifState :=
  let delay := n.scheduledTime - now
  if delay ≤ 0 then st
  else
    { st with
      armedTimers := st.armedTimers ++ [(st.nextHandle, n)]
      scheduledTimeouts := mapSet st.scheduledTimeouts n.id st.nextHandle
      nextHandle := st.nextHandle + 1 }

/-- The next occurrence built in the timeout callback (lines 277-290):
`scheduledTime` advanced from the previous scheduled time (not from the
firing instant) by one day for `daily`, seven days for `weekly`. -/
def nextNotification (n : ScheduledNotification) : ScheduledNotification :=
  match n.repeatInterval with
  | some .daily => { n with scheduledTime := n.scheduledTime + dayMs }
  | some .weekly => { n with scheduledTime := n.scheduledTime + 7 * dayMs }
  | none => n

/-- Firing of the armed timeout with handle `h` at instant `now` (the
callback body, lines 272-296): the runtime consumes the timeout, the
notification is shown through the suppression path, a repeating
notification re-arms its next occurrence, and finally the callback deletes
the map entry for the notification's id (after the re-arm stored its new
handle under the same id). -/
def fireTimer (now : Int) (h : Nat) (st : NotifState) : NotifState :=
  match st.armedTimers.find? (fun p => p.1 == h) with
  | none => st
  | some (_, n) =>
    let st1 := { st with armedTimers := st.armedTimers.filter (fun p => p.1 != h) }
    let st2 :=
      if n.repeating && n.repeatInterval.isSome then
        scheduleNotificationInternal now (nextNotification n) st1
      else st1
    { st2 with scheduledTimeouts := mapDelete st2.scheduledTimeouts n.id }

/-- `NotificationService.scheduleNotification` (lines 246-254): schedules
internally, persists, and resolves with the notification's id. -/
def scheduleNotification (now : Int) (n : ScheduledNotification)
    (ls : LocalStorage) (st : NotifState) : String × LocalStorage × NotifState :=
  let st2 := scheduleNotificationInternal now n st
  (n.id, saveScheduledNotifications st2 ls, st2)

/-- `NotificationService.cancelScheduledNotification` (lines 305-312):
clears the timeout found under the id, deletes the map entry, and persists. -/
def cancelScheduledNotification (id : String) (ls : LocalStorage)
    (st : NotifState) : LocalStorage × NotifState :=
  let st2 :=
    match st.scheduledTimeouts.find? (fun p => p.1 == id) with
    | some (_, h) =>
      { st with
        armedTimers := st.armedTimers.filter (fun p => p.1 != h)
        scheduledTimeouts := mapDelete st.scheduledTimeouts id }
    | none => st
  (saveScheduledNotifications st2 ls, st2)

/-- `NotificationService.cancelAllScheduledNotifications` (lines 317-324):
clears every timeout referenced by the map, empties the map, then removes
the persisted key.  The method has no try/catch, so the `removeItem`
outcome is carried as an `Except` (the timeouts are already cleared when a
failure propagates). -/
def cancelAllScheduledNotifications (ls : LocalStorage) (st : NotifState) :
    Except String LocalStorage × NotifState :=
  let st2 :=
    { st with
      armedTimers :=
        st.armedTimers.filter (fun p => !(st.scheduledTimeouts.any (fun q => q.2 == p.1)))
      scheduledTimeouts := [] }
  (lsRemoveItem ls SCHEDULED_KEY, st2)

/-- `NotificationService.restoreScheduledNotifications` (lines 106-124):
reads the persisted list and re-schedules each entry whose `scheduledTime`
is still in the future; absent key, storage failure or a malformed payload
leave the state unchanged (the catch swallows). -/
def restoreScheduledNotifications (now : Int) (ls : LocalStorage)
    (st : NotifState) : NotifState :=
  match lsGetItem ls SCHEDULED_KEY with
  | .error _ => st
  | .ok none => st
  | .ok (some (.schedList ns)) =>
    ns.foldl (fun s n =>
      if now < n.scheduledTime then scheduleNotificationInternal now n s else s) st
  | .ok (some _) => st

/-- The clear-all-app-data path as invoked by the only caller of `clear()`
(`useProfileViewModel.clearProfile`, lines 289-305): it awaits
`persistence.clear()` and resets view state; the `NotificationService` is
not invoked, so the scheduler state is passed through untouched. -/
def clearProfileData (ls : LocalStorage) (st : NotifState) :
    LocalStorage × NotifState :=
  (persistClear ls, st)

/-- Operations on the scheduler reachable through its public surface,
tagged with the wall-clock instant at which they run. -/
inductive NotifOp where
  | schedule (now : Int) (n : ScheduledNotification)
  | cancel (id : String)
  | fire (now : Int) (h : Nat)
  | cancelAll
  | restore (now : Int)

/-- Applies one scheduler operation to the combined storage/scheduler state. -/
def applyOp (s : LocalStorage × NotifState) : NotifOp → LocalStorage × NotifState
  | .schedule now n =>
    let r := scheduleNotification now n s.1 s.2
    (r.2.1, r.2.2)
  | .cancel id => cancelScheduledNotification id s.1 s.2
  | .fire now h => (s.1, fireTimer now h s.2)
  | .cancelAll =>
    let r := cancelAllScheduledNotifications s.1 s.2
    (match r.1 with | .ok ls2 => ls2 | .error _ => s.1, r.2)
  | .restore now => (s.1, restoreScheduledNotifications now s.1 s.2)

/-- Runs a sequence of scheduler operations. -/
def runOps (s : LocalStorage × NotifState) (ops : List NotifOp) :
    LocalStorage × NotifState :=
  ops.foldl applyOp s

/-- Scheduler state of a fresh service instance (fields initialized at
lines 55-61 before the constructor restores persisted schedules). -/
def initialNotifState : NotifState :=
  { armedTimers := [], scheduledTimeouts := [], nextHandle := 0 }

/-! ## Quiet hours (`NotificationService.isQuietHours`, lines 150-163)

JavaScript compares the `"HH:MM"` strings with `<`/`>=`, i.e. lexicographic
comparison of UTF-16 code units; `jsStrLtChars` models that order. -/

/-- JavaScript `<` on strings: lexicographic over code units. -/
def jsStrLtChars : List Char → List Char → Bool
  | [], [] => false
  | [], _ :: _ => true
  | _ :: _, [] => false
  | a :: as, b :: bs =>
    if a.val < b.val then true
    else if b.val < a.val then false
    else jsStrLtChars as bs

/-- JavaScript `s < t` on strings. -/
def jsStrLt (s t : String) : Bool := jsStrLtChars s.data t.data

/-- JavaScript `s >= t` on strings (negation of `<` in the total order). -/
def jsStrGe (s t : String) : Bool := !(jsStrLt s t)

/-- JavaScript falsiness of the optional `"HH:MM"` preference fields:
`undefined` and the empty string are falsy. -/
def optFalsy : Option String → Bool
  | none => true
  | some s => s.isEmpty

/-- `String(n).padStart(2, '0')` for the hour/minute components. -/
def padStart2 (n : Nat) : String :=
  if n < 10 then "0" ++ toString n else toString n

/-- The current `"HH:MM"` string built at line 155 from
`now.getHours()`/`now.getMinutes()`. -/
def currentTimeString (h m : Nat) : String :=
  padStart2 h ++ ":" ++ padStart2 m

/-- `NotificationService.isQuietHours` (lines 150-163), with the current
time string passed explicitly: falsy start or end means never in quiet
hours; `start > end` wraps past midnight (`now >= start || now < end`);
otherwise `now >= start && now < end`. -/
def isQuietHours (quietHoursStart quietHoursEnd : Option String)
    (currentTime : String) : Bool :=
  if optFalsy quietHoursStart || optFalsy quietHoursEnd then false
  else
    let s := quietHoursStart.getD ""
    let e := quietHoursEnd.getD ""
    if jsStrLt e s then jsStrGe currentTime s || jsStrLt currentTime e
    else jsStrGe currentTime s && jsStrLt currentTime e

/-! ## Geofence monitor (`src/services/implementations/LocationService.ts`)

The per-region logic of `checkGeofences` (lines 304-321) decides
`isInside := distance <= radiusMeters` and then acts only on a state
change of `region.isActive`.  The step is embedded over that decided
boolean, so that runs over sample sequences stay executable; the distance
itself (`calculateDistance`) is embedded over the reals below. -/

/-- A geofence transition event delivered to the region's callback. -/
inductive GeofenceEvent where
  | enter
  | exit
deriving DecidableEq

/-- One evaluation of `checkGeofences` for a single region (lines 307-319):
`isInside` is the decided comparison `distance <= region.radiusMeters`,
`isActive` the region's current state.  Returns the updated `isActive`
and the event fired, if any. -/
def checkGeofenceStep (isInside isActive : Bool) : Bool × Option GeofenceEvent :=
  if isInside && !isActive then (true, some .enter)
  else if !isInside && isActive then (false, some .exit)
  else (isActive, none)

/-- Evaluation of a sequence of location samples against one region, each
sample already decided to `isInside`; returns the final state and the
events fired in order. -/
def runGeofence (isActive : Bool) : List Bool → Bool × List GeofenceEvent
  | [] => (isActive, [])
  | b :: bs =>
    let step := checkGeofenceStep b isActive
    let rest := runGeofence step.1 bs
    (rest.1, step.2.toList ++ rest.2)

/-- `LocationService.registerGeofence` (lines 268-282), at the level of the
decided insideness of the last known sample (when one exists): a region
already containing the last known sample is initialized to `isActive =
true` with an immediate `enter`; otherwise the region's own `isActive`
flag is kept and nothing fires. -/
def registerGeofenceInit (lastInside : Option Bool) (regionActive : Bool) :
    Bool × Option GeofenceEvent :=
  match lastInside with
  | some true => (true, some .enter)
  | _ => (regionActive, none)

/-- Number of occurrences of an event in a fired-event list. -/
def countEvents (e : GeofenceEvent) : List GeofenceEvent → Nat
  | [] => 0
  | x :: xs => (if x == e then 1 else 0) + countEvents e xs

/-- Specification-side count, for comparison with the implementation: the
number of crossings of the insideness trace into the value `target`
(`outside → inside` crossings for `target = true`, `inside → outside` for
`target = false`), starting from state `st`. -/
def countCrossingsTo (target : Bool) : Bool → List Bool → Nat
  | _, [] => 0
  | st, b :: bs => (if b == target && st != target then 1 else 0) + countCrossingsTo target b bs

/-! ## Concrete states used to instantiate the theorems -/

/-- An available, empty `localStorage`. -/
def emptyStorage : LocalStorage := { avail := true, items := [] }

/-- Storage with availability off (private-mode browser): every primitive
access throws. -/
def unavailableStorage : LocalStorage := { avail := false, items := [] }

/-- A non-repeating notification scheduled for instant 2000. -/
def c1Future : ScheduledNotification :=
  { id := "c1-future", title := "t", body := "b", scheduledTime := 2000,
    repeating := false, repeatInterval := none }

/-- A non-repeating notification scheduled for instant 500. -/
def c1Past : ScheduledNotification :=
  { id := "c1-past", title := "t", body := "b", scheduledTime := 500,
    repeating := false, repeatInterval := none }

/-- A pending non-repeating notification used for the clear-all scenario. -/
def c2Notification : ScheduledNotification :=
  { id := "c2", title := "t", body := "b", scheduledTime := 2000,
    repeating := false, repeatInterval := none }

/-- Storage holding two `herenow_` keys and one foreign key. -/
def c2Storage : LocalStorage :=
  { avail := true,
    items := [("herenow_user_profile", .raw "profile"),
              (SCHEDULED_KEY, .schedList []),
              ("unrelated_key", .raw "x")] }

/-- Scheduler state with one armed timer for `c2Notification`. -/
def c2NotifState : NotifState :=
  { armedTimers := [(0, c2Notification)], scheduledTimeouts := [("c2", 0)],
    nextHandle := 1 }

/-- A repeating daily notification scheduled for instant 1000. -/
def c8Notification : ScheduledNotification :=
  { id := "c8", title := "t", body := "b", scheduledTime := 1000,
    repeating := true, repeatInterval := some .daily }

/-- Scheduler state with `c8Notification` armed under handle 5. -/
def c8State : NotifState :=
  { armedTimers := [(5, c8Notification)], scheduledTimeouts := [("c8", 5)],
    nextHandle := 6 }

/-- A non-repeating notification whose scheduled time 500 lies in the past
of the call instant used with it. -/
def c9Notification : ScheduledNotification :=
  { id := "c9", title := "t", body := "b", scheduledTime := 500,
    repeating := false, repeatInterval := none }

/-- Specification-side abbreviation: the advance per repeat interval in
milliseconds (one day, resp. seven days). -/
def intervalMs : RepeatInterval → Int
  | .daily => dayMs
  | .weekly => 7 * dayMs

/-! ## Haversine distance (`LocationService.calculateDistance`, lines 245-262)

The floating-point arithmetic of the source is embedded over the real
numbers; `atan2` is JavaScript's `Math.atan2` on the reals. -/

noncomputable section

/-- Earth's mean radius in meters (`LocationService.ts` line 48). -/
def EARTH_RADIUS_METERS : ℝ := 6371000

/-- `toRadians` (lines 54-56). -/
def toRadians (degrees : ℝ) : ℝ := degrees * (Real.pi / 180)

/-- A latitude/longitude pair in degrees (`ILocationService.ts`). -/
structure Coordinates where
  latitude : ℝ
  longitude : ℝ

/-- JavaScript `Math.atan2` over the reals. -/
def atan2 (y x : ℝ) : ℝ :=
  if 0 < x then Real.arctan (y / x)
  else if x < 0 then
    if 0 ≤ y then Real.arctan (y / x) + Real.pi else Real.arctan (y / x) - Real.pi
  else
    if 0 < y then Real.pi / 2
    else if y < 0 then -(Real.pi / 2)
    else 0

/-- The local `a` of the haversine formula (lines 253-256):
`sin²(Δlat/2) + cos(lat1)·cos(lat2)·sin²(Δlon/2)` with the squares written
as products, exactly as in the source. -/
def haversineA (p q : Coordinates) : ℝ :=
  Real.sin (toRadians (q.latitude - p.latitude) / 2) *
      Real.sin (toRadians (q.latitude - p.latitude) / 2) +
    Real.cos (toRadians p.latitude) * Real.cos (toRadians q.latitude) *
      Real.sin (toRadians (q.longitude - p.longitude) / 2) *
      Real.sin (toRadians (q.longitude - p.longitude) / 2)

/-- `LocationService.calculateDistance` (lines 245-262):
`c = 2·atan2(√a, √(1-a))`, distance `= R·c` in meters. -/
def calculateDistance (p q : Coordinates) : ℝ :=
  EARTH_RADIUS_METERS *
    (2 * atan2 (Real.sqrt (haversineA p q)) (Real.sqrt (1 - haversineA p q)))

end

/-! ## Theorems -/

/-- C10: in every state of the Notification Scheduler reachable by any
sequence of schedule, cancel, fire, cancel-all and restore operations —
regardless of how many notifications have been scheduled and are currently
pending — `getPendingNotifications` returns the empty list. -/
theorem C10_pending_always_empty (init : LocalStorage × NotifState)
    (ops : List NotifOp) : getPendingNotifications (runOps init ops).2 = [] :=
  rfl

/-- C10 witness: after scheduling a future notification from the initial
state, `getPendingNotifications` still returns the empty list. -/
theorem C10_pending_always_empty_witness :
    getPendingNotifications
      (runOps (emptyStorage, initialNotifState) [.schedule 1000 c1Future]).2 = [] :=
  C10_pending_always_empty (emptyStorage, initialNotifState) [.schedule 1000 c1Future]

/-- C9: a notification whose `scheduledTime` is not in the future
(`delay <= 0`) is discarded: the internal scheduling step leaves the
scheduler state completely unchanged — no timer is armed, so no delivery
callback can ever result — and the public `scheduleNotification` call still
resolves with the notification's id rather than an error. -/
theorem C9_past_schedule_noop (now : Int) (n : ScheduledNotification)
    (ls : LocalStorage) (st : NotifState) (hpast : n.scheduledTime - now ≤ 0) :
    scheduleNotificationInternal now n st = st ∧
    (scheduleNotification now n ls st).1 = n.id ∧
    (scheduleNotification now n ls st).2.2 = st := by
  have h1 : scheduleNotificationInternal now n st = st := by
    unfold scheduleNotificationInternal
    simp [hpast]
  refine ⟨h1, rfl, ?_⟩
  simp [scheduleNotification, h1]

/-- C9 witness: scheduling `c9Notification` (time 500) at instant 1000
changes nothing and resolves with its id. -/
theorem C9_past_schedule_noop_witness :
    scheduleNotificationInternal 1000 c9Notification initialNotifState =
      initialNotifState ∧
    (scheduleNotification 1000 c9Notification emptyStorage initialNotifState).1 =
      c9Notification.id ∧
    (scheduleNotification 1000 c9Notification emptyStorage initialNotifState).2.2 =
      initialNotifState :=
  C9_past_schedule_noop 1000 c9Notification emptyStorage initialNotifState (by decide)

/-- C1: the code contradicts the persistence-and-rehydration contract.
Scheduling a future notification does arm a timer, but the arm operation
persists `getPendingNotificationsSync()`, which is stubbed to the empty
array, so the persisted set is `[]` and a process restart re-arms nothing —
even though the schedule is still in the future.  The restore filter itself
is correct: fed a hand-written persisted list it re-arms exactly the future
entry and silently drops the past-due one. -/
theorem C1_persistence_stubbed :
    (scheduleNotification 1000 c1Future emptyStorage initialNotifState).2.2.armedTimers =
      [(0, c1Future)] ∧
    lookupItem
      (scheduleNotification 1000 c1Future emptyStorage initialNotifState).2.1.items
      SCHEDULED_KEY = some (.schedList []) ∧
    (restoreScheduledNotifications 1500
      (scheduleNotification 1000 c1Future emptyStorage initialNotifState).2.1
      initialNotifState).armedTimers = [] ∧
    (restoreScheduledNotifications 1000
      { avail := true, items := [(SCHEDULED_KEY, .schedList [c1Past, c1Future])] }
      initialNotifState).armedTimers = [(0, c1Future)] := by
  refine ⟨rfl, rfl, rfl, rfl⟩

/-- After one evaluation step the region's state equals the sample's
insideness, in every case. -/
theorem checkGeofenceStep_fst (b a : Bool) : (checkGeofenceStep b a).1 = b := by
  cases b <;> cases a <;> rfl

/-- Event counts of a run coincide with the crossing counts of the
insideness trace. -/
theorem runGeofence_counts (a : Bool) (bs : List Bool) :
    countEvents .enter (runGeofence a bs).2 = countCrossingsTo true a bs ∧
    countEvents .exit (runGeofence a bs).2 = countCrossingsTo false a bs := by
  induction bs generalizing a with
  | nil => exact ⟨rfl, rfl⟩
  | cons b bs ih =>
    obtain ⟨ih1, ih2⟩ := ih b
    cases a <;> cases b <;>
      simp [runGeofence, checkGeofenceStep, countEvents, countCrossingsTo,
        ih1, ih2]

/-- C4: for every region (any initial `isActive` state, covering both
outcomes of registration) and every sequence of evaluated samples, the
monitor fires exactly one `enter` event per outside-to-inside crossing of
the insideness trace and exactly one `exit` event per inside-to-outside
crossing; and a sample that leaves the state unchanged fires no event
(repeated samples inside do not re-fire `enter`). -/
theorem C4_geofence_edge_triggered :
    (∀ (isActive : Bool) (insides : List Bool),
        countEvents .enter (runGeofence isActive insides).2 =
          countCrossingsTo true isActive insides ∧
        countEvents .exit (runGeofence isActive insides).2 =
          countCrossingsTo false isActive insides) ∧
    (∀ b : Bool, checkGeofenceStep b b = (b, none)) := by
  refine ⟨runGeofence_counts, ?_⟩
  intro b
  cases b <;> rfl

/-- C6: the quiet-hours check holds exactly when both bounds are present
(non-falsy) and, comparing the `"HH:MM"` values, either the window wraps
midnight (`start > end` and `now >= start || now < end`) or
`start <= now < end`; with either bound absent it is always false.  For
every clock time, the window `22:00–07:00` suppresses exactly the minutes
at or after 22:00 or strictly before 07:00 (so at 23:30 and 06:00 but not
at 12:00), and the window `09:00–17:00` suppresses exactly the minutes in
`[09:00, 17:00)`. -/
theorem C6_quiet_hours :
    (∀ (e : Option String) (now : String), isQuietHours none e now = false) ∧
    (∀ (s : Option String) (now : String), isQuietHours s none now = false) ∧
    (∀ s e now : String,
      isQuietHours (some s) (some e) now =
        (!s.isEmpty && !e.isEmpty &&
          (if jsStrLt e s then jsStrGe now s || jsStrLt now e
           else jsStrGe now s && jsStrLt now e))) ∧
    (∀ (h : Fin 24) (m : Fin 60),
      isQuietHours (some "22:00") (some "07:00") (currentTimeString h.val m.val) =
        (decide (1320 ≤ 60 * h.val + m.val) || decide (60 * h.val + m.val < 420))) ∧
    (∀ (h : Fin 24) (m : Fin 60),
      isQuietHours (some "09:00") (some "17:00") (currentTimeString h.val m.val) =
        (decide (540 ≤ 60 * h.val + m.val) && decide (60 * h.val + m.val < 1020))) := by
  refine ⟨fun e now => rfl, ?_, ?_, by decide, by decide⟩
  · intro s now
    simp [isQuietHours, optFalsy, Bool.or_true]
  · intro s e now
    unfold isQuietHours optFalsy
    cases hs : s.isEmpty <;> cases he : e.isEmpty <;> simp [hs, he]

/-- A successful `set` of an ad-watch record prepends the typed entry. -/
theorem persistSet_adData (ls : LocalStorage) (d : String) (c : Int)
    (ha : ls.avail = true) :
    persistSet ls AD_WATCH_COUNT (.adData d c) =
      .ok { ls with items := (AD_WATCH_COUNT, .adData d c) ::
              ls.items.filter (fun p => p.1 != AD_WATCH_COUNT) } := by
  unfold persistSet lsSetItem
  rw [ha]
  rfl

/-- Reading the ad entry back from a store whose head is a freshly written
ad-watch record. -/
theorem adEntry_after_set (ls : LocalStorage) (d : String) (c : Int)
    (ha : ls.avail = true) :
    adEntry { ls with items := (AD_WATCH_COUNT, .adData d c) ::
        ls.items.filter (fun p => p.1 != AD_WATCH_COUNT) } = some (d, c) := by
  unfold adEntry persistGet lsGetItem lookupItem
  simp [ha, List.find?]

/-- A same-day `recordAdWatch` call returns the post-increment count and
re-stores it under today's stamp. -/
theorem recordAdWatch_increments (ls : LocalStorage) (d : String) (c : Int)
    (ha : ls.avail = true) (he : adEntry ls = some (d, c)) :
    adWatchResult d ls = some (c + 1) ∧
    adEntry (adWatchStore d ls) = some (d, c + 1) ∧
    (adWatchStore d ls).avail = true := by
  have hset := persistSet_adData ls d (c + 1) ha
  have hback := adEntry_after_set ls d (c + 1) ha
  unfold adWatchResult adWatchStore recordAdWatch
  rw [he]
  simp only [bne_self_eq_false, Bool.false_eq_true, if_false, hset]
  exact ⟨trivial, hback, ha⟩

/-- A `recordAdWatch` call against an absent or stale entry resets the
counter to 1 under today's stamp. -/
theorem recordAdWatch_resets (ls : LocalStorage) (d : String)
    (ha : ls.avail = true)
    (hf : adEntry ls = none ∨ ∃ d0 c0, adEntry ls = some (d0, c0) ∧ d0 ≠ d) :
    adWatchResult d ls = some 1 ∧
    adEntry (adWatchStore d ls) = some (d, 1) ∧
    (adWatchStore d ls).avail = true := by
  have hset := persistSet_adData ls d 1 ha
  have hback := adEntry_after_set ls d 1 ha
  unfold adWatchResult adWatchStore recordAdWatch
  rcases hf with hn | ⟨d0, c0, he, hne⟩
  · rw [hn]
    simp only [hset]
    exact ⟨trivial, hback, ha⟩
  · rw [he]
    have hbne : (d0 != d) = true := bne_iff_ne.mpr hne
    simp only [hbne, if_true, hset]
    exact ⟨trivial, hback, ha⟩

/-- C5: `recordAdWatch` (the daily counter) returns the post-increment
value — with an entry stamped today holding `c` it returns `c + 1` — and
on first access of a new day (absent or stale entry) it resets: called
three times on the same day it returns 1, 2, 3, and called again with the
day advanced it returns 1. -/
theorem C5_daily_counter (ls : LocalStorage) (d d2 : String)
    (ha : ls.avail = true)
    (hf : adEntry ls = none ∨ ∃ d0 c0, adEntry ls = some (d0, c0) ∧ d0 ≠ d)
    (hd2 : d2 ≠ d) :
    (∀ (ls2 : LocalStorage) (c : Int), ls2.avail = true →
        adEntry ls2 = some (d, c) → adWatchResult d ls2 = some (c + 1)) ∧
    adWatchResult d ls = some 1 ∧
    adWatchResult d (adWatchStore d ls) = some 2 ∧
    adWatchResult d (adWatchStore d (adWatchStore d ls)) = some 3 ∧
    adWatchResult d2 (adWatchStore d (adWatchStore d (adWatchStore d ls))) =
      some 1 := by
  obtain ⟨h1r, h1e, h1a⟩ := recordAdWatch_resets ls d ha hf
  obtain ⟨h2r, h2e, h2a⟩ := recordAdWatch_increments (adWatchStore d ls) d 1 h1a h1e
  obtain ⟨h3r, h3e, h3a⟩ :=
    recordAdWatch_increments (adWatchStore d (adWatchStore d ls)) d (1 + 1) h2a h2e
  obtain ⟨h4r, _, _⟩ :=
    recordAdWatch_resets (adWatchStore d (adWatchStore d (adWatchStore d ls))) d2
      h3a (Or.inr ⟨d, 1 + 1 + 1, h3e, Ne.symm hd2⟩)
  exact ⟨fun ls2 c hav hen => (recordAdWatch_increments ls2 d c hav hen).1,
    h1r, h2r, by simpa using h3r, h4r⟩

/-- C5 witness: from an empty available store, three calls stamped
2024-06-01 return 1, 2, 3, and a fourth stamped 2024-06-02 returns 1. -/
theorem C5_daily_counter_witness :
    adWatchResult "2024-06-01" emptyStorage = some 1 ∧
    adWatchResult "2024-06-01" (adWatchStore "2024-06-01" emptyStorage) = some 2 ∧
    adWatchResult "2024-06-01"
      (adWatchStore "2024-06-01" (adWatchStore "2024-06-01" emptyStorage)) =
        some 3 ∧
    adWatchResult "2024-06-02"
      (adWatchStore "2024-06-01"
        (adWatchStore "2024-06-01" (adWatchStore "2024-06-01" emptyStorage))) =
        some 1 := by
  have h := C5_daily_counter emptyStorage "2024-06-01" "2024-06-02" rfl
    (Or.inl rfl) (by decide)
  exact ⟨h.2.1, h.2.2.1, h.2.2.2.1, h.2.2.2.2⟩

/-- C3 counterexample: with storage unavailable, a write is not a silent
no-op — `set` surfaces a persist error to the caller, contrary to the
claim that no cache/counter operation surfaces an error. -/
theorem C3_counterexample :
    persistSet unavailableStorage "herenow_user_profile" (.raw "v") =
      .error "Failed to persist data for key herenow_user_profile" := by
  rfl

/-- C3 amended: with storage unavailable, reads degrade to absent without
throwing (`get` returns null, the ad-watch count reads 0, the unlock
threshold reads false) and `remove`/`clear` are silent no-ops, but `set`
surfaces a `Failed to persist` error, and consequently the counter
increment `recordAdWatch` also surfaces that error instead of returning a
value. -/
theorem C3_storage_unavailable (ls : LocalStorage) (k today : String)
    (v : StoredVal) (h : ls.avail = false) :
    persistGet ls k = none ∧
    persistSet ls k v = .error ("Failed to persist data for key " ++ k) ∧
    persistRemove ls k = ls ∧
    persistClear ls = ls ∧
    recordAdWatch today ls =
      .error ("Failed to persist data for key " ++ AD_WATCH_COUNT) ∧
    getAdWatchCount today ls = 0 ∧
    isEventUnlocked today ls = false := by
  have hget : persistGet ls k = none := by
    unfold persistGet lsGetItem
    rw [h]
    rfl
  have hentry : adEntry ls = none := by
    unfold adEntry persistGet lsGetItem
    rw [h]
    rfl
  refine ⟨hget, ?_, ?_, ?_, ?_, ?_, ?_⟩
  · unfold persistSet lsSetItem
    rw [h]
    rfl
  · unfold persistRemove lsRemoveItem
    rw [h]
    rfl
  · unfold persistClear
    rw [h]
    rfl
  · unfold recordAdWatch
    rw [hentry]
    unfold persistSet lsSetItem
    rw [h]
    rfl
  · unfold getAdWatchCount
    rw [hentry]
  · unfold isEventUnlocked getAdWatchCount
    rw [hentry]
    rfl

/-- C3 witness: the amended behaviour at a concrete unavailable store. -/
theorem C3_storage_unavailable_witness :
    persistGet unavailableStorage "herenow_user_profile" = none ∧
    persistSet unavailableStorage "herenow_user_profile" (.raw "v") =
      .error "Failed to persist data for key herenow_user_profile" ∧
    persistRemove unavailableStorage "herenow_user_profile" = unavailableStorage ∧
    persistClear unavailableStorage = unavailableStorage ∧
    recordAdWatch "2024-06-01" unavailableStorage =
      .error ("Failed to persist data for key " ++ AD_WATCH_COUNT) ∧
    getAdWatchCount "2024-06-01" unavailableStorage = 0 ∧
    isEventUnlocked "2024-06-01" unavailableStorage = false :=
  C3_storage_unavailable unavailableStorage "herenow_user_profile" "2024-06-01"
    (.raw "v") rfl

/-- C2 counterexample: clearing all app data removes the `herenow_` keys,
but the armed scheduled-notification timer survives — `clear()` does not
cancel scheduled notifications (its only caller never invokes the
scheduler's cancel-all). -/
theorem C2_counterexample :
    lookupItem (clearProfileData c2Storage c2NotifState).1.items
      "herenow_user_profile" = none ∧
    (clearProfileData c2Storage c2NotifState).2.armedTimers =
      [(0, c2Notification)] ∧
    (clearProfileData c2Storage c2NotifState).2.armedTimers ≠ [] := by
  refine ⟨by decide, rfl, by decide⟩

/-- Looking a key up after filtering out the `herenow_` namespace: a
namespaced key is gone, any other key is untouched. -/
theorem lookupItem_filter_herenow (items : List (String × StoredVal)) (k : String) :
    lookupItem (items.filter (fun p => !(strStartsWith p.1 "herenow_"))) k =
      if strStartsWith k "herenow_" = true then none else lookupItem items k := by
  induction items with
  | nil => simp [lookupItem]
  | cons p ps ih =>
    cases hp : strStartsWith p.1 "herenow_" with
    | true =>
      rw [List.filter_cons_of_neg (by simp [hp])]
      rw [ih]
      cases hk : strStartsWith k "herenow_" with
      | true => simp
      | false =>
        have hne : (p.1 == k) = false := by
          refine beq_eq_false_iff_ne.mpr ?_
          intro hEq
          rw [hEq, hk] at hp
          exact Bool.false_ne_true hp
        simp [lookupItem, List.find?_cons, hne]
    | false =>
      rw [List.filter_cons_of_pos (by simp [hp])]
      cases hpk : (p.1 == k) with
      | true =>
        have hkEq : p.1 = k := eq_of_beq hpk
        have hk : strStartsWith k "herenow_" = false := by
          rw [← hkEq]
          exact hp
        simp [lookupItem, List.find?_cons, hpk, hk]
      | false =>
        have hl : ∀ (rest : List (String × StoredVal)),
            lookupItem (p :: rest) k = lookupItem rest k := by
          intro rest
          simp [lookupItem, List.find?_cons, hpk]
        rw [hl, hl, ih]

/-- C2 amended: when storage is available, `clear()` removes exactly the
keys under the reserved `herenow_` prefix — including the persisted
schedule store — and preserves every other key; the scheduler state is
untouched, so armed scheduled-notification timers are not cancelled. -/
theorem C2_clear_behaviour (ls : LocalStorage) (st : NotifState) (k : String)
    (ha : ls.avail = true) :
    (strStartsWith k "herenow_" = true →
      lookupItem (clearProfileData ls st).1.items k = none) ∧
    (strStartsWith k "herenow_" = false →
      lookupItem (clearProfileData ls st).1.items k = lookupItem ls.items k) ∧
    (clearProfileData ls st).2 = st := by
  have hclr : (clearProfileData ls st).1.items =
      ls.items.filter (fun p => !(strStartsWith p.1 "herenow_")) := by
    unfold clearProfileData persistClear
    rw [ha]
    simp
  refine ⟨?_, ?_, rfl⟩
  · intro hk
    rw [hclr, lookupItem_filter_herenow, if_pos hk]
  · intro hk
    rw [hclr, lookupItem_filter_herenow, if_neg (by simp [hk])]

/-- C2 witness: at the concrete cleared state, the namespaced profile key
is gone, the foreign key survives, and the scheduler state is unchanged. -/
theorem C2_clear_behaviour_witness :
    lookupItem (clearProfileData c2Storage c2NotifState).1.items
      "herenow_user_profile" = none ∧
    lookupItem (clearProfileData c2Storage c2NotifState).1.items
      "unrelated_key" = lookupItem c2Storage.items "unrelated_key" ∧
    (clearProfileData c2Storage c2NotifState).2 = c2NotifState :=
  ⟨(C2_clear_behaviour c2Storage c2NotifState "herenow_user_profile" rfl).1
      (by decide),
   (C2_clear_behaviour c2Storage c2NotifState "unrelated_key" rfl).2.1
      (by decide),
   (C2_clear_behaviour c2Storage c2NotifState "unrelated_key" rfl).2.2⟩

/-- Firing the only armed timer of a repeating notification re-arms exactly
one timer, for the advanced occurrence, under the next fresh handle. -/
theorem fireTimer_single (st : NotifState) (n : ScheduledNotification) (h : Nat)
    (now : Int) (iv : RepeatInterval)
    (hr : n.repeating = true) (hi : n.repeatInterval = some iv)
    (ha : st.armedTimers = [(h, n)])
    (ht : now < n.scheduledTime + intervalMs iv) :
    (fireTimer now h st).armedTimers =
      [(st.nextHandle, { n with scheduledTime := n.scheduledTime + intervalMs iv })] ∧
    (fireTimer now h st).nextHandle = st.nextHandle + 1 := by
  have hd : ¬ (n.scheduledTime + intervalMs iv - now ≤ 0) := by
    push_neg
    linarith
  cases iv with
  | daily =>
    simp only [intervalMs] at hd
    constructor <;>
      simp [fireTimer, scheduleNotificationInternal, nextNotification, mapSet,
        mapDelete, ha, hr, hi, hd, intervalMs]
  | weekly =>
    simp only [intervalMs] at hd
    constructor <;>
      simp [fireTimer, scheduleNotificationInternal, nextNotification, mapSet,
        mapDelete, ha, hr, hi, hd, intervalMs]

/-- C8: when the single pending timer of a repeating notification fires
(at any instant before the advanced occurrence is due), exactly one new
timer is armed, carrying the same notification id, with `scheduledTime`
advanced from the previous scheduled time by exactly one day for `daily`
and seven days for `weekly`; firing that timer in turn arms exactly one
timer at the original time plus twice the interval — chaining with no
drift. -/
theorem C8_repeat_rearm (st : NotifState) (n : ScheduledNotification)
    (h : Nat) (now now2 : Int) (iv : RepeatInterval)
    (hr : n.repeating = true) (hi : n.repeatInterval = some iv)
    (ha : st.armedTimers = [(h, n)])
    (ht : now < n.scheduledTime + intervalMs iv)
    (ht2 : now2 < n.scheduledTime + 2 * intervalMs iv) :
    (fireTimer now h st).armedTimers =
      [(st.nextHandle, { n with scheduledTime := n.scheduledTime + intervalMs iv })] ∧
    (fireTimer now2 st.nextHandle (fireTimer now h st)).armedTimers =
      [((fireTimer now h st).nextHandle,
        { n with scheduledTime := n.scheduledTime + 2 * intervalMs iv })] := by
  obtain ⟨h1, hh1⟩ := fireTimer_single st n h now iv hr hi ha ht
  refine ⟨h1, ?_⟩
  have h2 := fireTimer_single (fireTimer now h st)
    { n with scheduledTime := n.scheduledTime + intervalMs iv }
    st.nextHandle now2 iv hr hi h1 (by simp; linarith)
  rw [h2.1]
  have harith : n.scheduledTime + intervalMs iv + intervalMs iv =
      n.scheduledTime + 2 * intervalMs iv := by ring
  simp [harith]

/-- C8 witness: firing `c8Notification` (scheduled for 1000, repeating
daily) at instant 1000 re-arms one timer at 1000 + 86400000 under the same
id; firing that timer at its due instant re-arms one timer at
1000 + 172800000. -/
theorem C8_repeat_rearm_witness :
    (fireTimer 1000 5 c8State).armedTimers =
      [(6, { c8Notification with scheduledTime := 1000 + intervalMs .daily })] ∧
    (fireTimer 86401000 6 (fireTimer 1000 5 c8State)).armedTimers =
      [((fireTimer 1000 5 c8State).nextHandle,
        { c8Notification with scheduledTime := 1000 + 2 * intervalMs .daily })] :=
  C8_repeat_rearm c8State c8Notification 5 1000 86401000 .daily rfl rfl rfl
    (by decide) (by decide)

/-- The haversine `a`-value is symmetric in its two coordinates. -/
theorem haversineA_symm (p q : Coordinates) : haversineA p q = haversineA q p := by
  unfold haversineA
  have hlat : toRadians (p.latitude - q.latitude) =
      -toRadians (q.latitude - p.latitude) := by
    unfold toRadians
    ring
  have hlon : toRadians (p.longitude - q.longitude) =
      -toRadians (q.longitude - p.longitude) := by
    unfold toRadians
    ring
  rw [hlat, hlon, neg_div, neg_div, Real.sin_neg, Real.sin_neg]
  ring

/-- The haversine `a`-value vanishes on the diagonal. -/
theorem haversineA_self (p : Coordinates) : haversineA p p = 0 := by
  unfold haversineA toRadians
  simp

/-- `Math.atan2(0, 1)` is zero. -/
theorem atan2_zero_one : atan2 0 1 = 0 := by
  unfold atan2
  norm_num

/-- One degree of latitude at fixed longitude: the haversine `a`-value is
`sin²(π/360)`. -/
theorem haversineA_one_deg (lat lon : ℝ) :
    haversineA ⟨lat, lon⟩ ⟨lat + 1, lon⟩ =
      Real.sin (Real.pi / 360) * Real.sin (Real.pi / 360) := by
  unfold haversineA
  simp only [add_sub_cancel_left, sub_self]
  have h1 : toRadians 1 / 2 = Real.pi / 360 := by
    unfold toRadians
    ring
  have h0 : toRadians 0 / 2 = 0 := by
    unfold toRadians
    ring
  rw [h1, h0, Real.sin_zero]
  ring

/-- One degree of latitude at fixed longitude measures `R·π/180` meters. -/
theorem calculateDistance_one_deg (lat lon : ℝ) :
    calculateDistance ⟨lat, lon⟩ ⟨lat + 1, lon⟩ =
      EARTH_RADIUS_METERS * (2 * (Real.pi / 360)) := by
  have hx0 : (0 : ℝ) ≤ Real.pi / 360 := by positivity
  have hxpi : Real.pi / 360 ≤ Real.pi := by
    nlinarith [Real.pi_pos]
  have hxhalf : Real.pi / 360 < Real.pi / 2 := by
    nlinarith [Real.pi_pos]
  have hxneg : -(Real.pi / 2) < Real.pi / 360 := by
    nlinarith [Real.pi_pos]
  have hsin : (0 : ℝ) ≤ Real.sin (Real.pi / 360) :=
    Real.sin_nonneg_of_nonneg_of_le_pi hx0 hxpi
  have hcos : (0 : ℝ) < Real.cos (Real.pi / 360) :=
    Real.cos_pos_of_mem_Ioo ⟨hxneg, hxhalf⟩
  have hsq : 1 - Real.sin (Real.pi / 360) * Real.sin (Real.pi / 360) =
      Real.cos (Real.pi / 360) * Real.cos (Real.pi / 360) := by
    have hpyth := Real.sin_sq_add_cos_sq (Real.pi / 360)
    linear_combination -hpyth
  unfold calculateDistance
  rw [haversineA_one_deg, hsq, Real.sqrt_mul_self hsin,
    Real.sqrt_mul_self hcos.le]
  unfold atan2
  rw [if_pos hcos, ← Real.tan_eq_sin_div_cos, Real.arctan_tan hxneg hxhalf]

/-- C7: the haversine distance of the source is symmetric, vanishes on
identical coordinate pairs, and for two points one degree of latitude
apart at the same longitude it measures 111,000 meters to within 1%. -/
theorem C7_haversine_properties :
    (∀ p q : Coordinates, calculateDistance p q = calculateDistance q p) ∧
    (∀ p : Coordinates, calculateDistance p p = 0) ∧
    (∀ lat lon : ℝ,
      |calculateDistance ⟨lat, lon⟩ ⟨lat + 1, lon⟩ - 111000| ≤ 111000 / 100) := by
  refine ⟨?_, ?_, ?_⟩
  · intro p q
    unfold calculateDistance
    rw [haversineA_symm]
  · intro p
    unfold calculateDistance
    rw [haversineA_self]
    rw [Real.sqrt_zero, sub_zero, Real.sqrt_one, atan2_zero_one]
    ring
  · intro lat lon
    rw [calculateDistance_one_deg]
    rw [abs_le]
    unfold EARTH_RADIUS_METERS
    have h1 := Real.pi_gt_d6
    have h2 := Real.pi_lt_d6
    constructor <;> nlinarith

end HereNow
